import Mathlib

/-!
Verification development for the SDR (Sensor Data Record) subsystem of a
python IPMI client library (`pyipmi/sdr.py`).  The Python module is shallowly
embedded below: byte strings become `List Nat` (each element a byte value),
Python exceptions become constructors of `PyErr`, fallible code returns
`Except PyErr`, float arithmetic is modelled over `ℝ`, and the two
request/response loops of `Sdr.get_sdr` become structural recursions over an
explicit script of responses.

The byte-cursor collaborator (`pyipmi.utils.ByteBuffer`, not part of the
sources) is modelled from the spec: it consumes little-endian unsigned
integers of 1-4 bytes sequentially and fails when the buffer is exhausted.
Each record parser below is written as one `match` whose pattern lists the
record's bytes in exactly the source's pop order (a 2-byte pop consumes two
pattern variables `a :: c` and yields `a + 256 * c`, and so on); a buffer too
short for the pops falls through to the failing branch, exactly as a chain of
single pops would.
-/

/-- Error outcomes of the embedded code.  `decodingError` models
`DecodingError`, `unsupportedRecordType` models the distinguished
`DecodingError('Unsupported SDR type(..)')` raises of `create_sdr` (the type
byte is carried in the message), `completionError` models
`CompletionCodeError`, `retryError` models `RetryError`, `notImplemented`
models `NotImplementedError`, `valueError` models `ValueError`,
`zeroDivision` models `ZeroDivisionError`, `typeError` models `TypeError`,
`attributeError` models access to a never-assigned attribute, `indexError`
models reading past the end of a byte buffer, and `noResponse` and
`outOfFuel` are artifacts that totalize the embedding: they stand for a
response script, resp. a loop fuel, that ran out where the Python code would
keep blocking on the transport. -/
inductive PyErr where
  | decodingError
  | unsupportedRecordType (t : Nat)
  | completionError (cc : Nat)
  | retryError
  | notImplemented
  | valueError
  | zeroDivision
  | typeError
  | attributeError
  | indexError
  | noResponse
  | outOfFuel
deriving DecidableEq

deriving instance DecidableEq for Except

/-- `SdrFullSensorRecord._convert_complement`: two's-complement decode of a
`size`-bit field. -/
def convert_complement (value : Nat) (size : Nat) : Int :=
  if value &&& (1 <<< (size - 1)) ≠ 0 then (value : Int) - ((1 <<< size : Nat) : Int)
  else (value : Int)

/-- Byte 11 of a full sensor record: the `initialization` flag list, in the
append order of `SdrFullSensorRecord.from_data`. -/
def initList (initialization : Nat) : List String :=
  (if initialization &&& 0x40 ≠ 0 then ["scanning"] else []) ++
  (if initialization &&& 0x20 ≠ 0 then ["events"] else []) ++
  (if initialization &&& 0x10 ≠ 0 then ["thresholds"] else []) ++
  (if initialization &&& 0x08 ≠ 0 then ["hysteresis"] else []) ++
  (if initialization &&& 0x04 ≠ 0 then ["type"] else []) ++
  (if initialization &&& 0x02 ≠ 0 then ["default_event_generation"] else []) ++
  (if initialization &&& 0x01 ≠ 0 then ["default_scanning"] else [])

/-- Byte 12 of a full sensor record: the `capabilities` flag list, in the
append order of `SdrFullSensorRecord.from_data` (note that the source checks
the hysteresis and the threshold support level on the same `0x30` mask). -/
def capList (capabilities : Nat) : List String :=
  (if capabilities &&& 0x80 ≠ 0 then ["ignore_sensor"] else []) ++
  (if capabilities &&& 0x40 ≠ 0 then ["auto_rearm"] else []) ++
  (if capabilities &&& 0x30 = 0x00 then ["hysteresis_not_supported"]
   else if capabilities &&& 0x30 = 0x10 then ["hysteresis_readable"]
   else if capabilities &&& 0x30 = 0x20 then ["hysteresis_read_and_setable"]
   else if capabilities &&& 0x30 = 0x30 then ["hysteresis_fixed"] else []) ++
  (if capabilities &&& 0x30 = 0x00 then ["threshold_not_supported"]
   else if capabilities &&& 0x30 = 0x10 then ["threshold_readable"]
   else if capabilities &&& 0x30 = 0x20 then ["threshold_read_and_setable"]
   else if capabilities &&& 0x30 = 0x30 then ["threshold_fixed"] else [])

/-- Byte 31 of a full sensor record: the `analog_characteristic` flag list. -/
def analogCharList (analog_characteristics : Nat) : List String :=
  (if analog_characteristics &&& 0x01 ≠ 0 then ["nominal_reading"] else []) ++
  (if analog_characteristics &&& 0x02 ≠ 0 then ["normal_max"] else []) ++
  (if analog_characteristics &&& 0x04 ≠ 0 then ["normal_min"] else [])

/-- Models the Python truthiness test of `SdrCommon.__init__`: `if next_id:
self.next_id = next_id` — the attribute is assigned only for a supplied,
non-zero successor id. -/
def storeNext (next_id : Option Nat) : Option Nat :=
  match next_id with
  | some n => if n = 0 then none else some n
  | none => none

/-- Decoded `SdrFullSensorRecord` (type 0x01): the common header fields set by
`SdrCommon.from_response` (`lenght` keeps the source's spelling), the optional
`next_id` attribute, and every attribute assigned by
`SdrFullSensorRecord.from_data`.  The `threshold` dict becomes six
`threshold_*` fields and the `hysteresis` dict two fields. -/
structure SdrFullSensorRecord where
  data : List Nat
  id : Nat
  version : Nat
  type : Nat
  lenght : Nat
  next_id : Option Nat
  owner_id : Nat
  owner_lun : Nat
  number : Nat
  entity_id : Nat
  entity_instance : Nat
  initialization : List String
  capabilities : List String
  sensor_type_code : Nat
  event_reading_type_code : Nat
  assertion_mask : Nat
  deassertion_mask : Nat
  discrete_reading_mask : Nat
  analog_data_format : Nat
  rate_unit : Nat
  modifier_unit : Nat
  percentage : Nat
  linearization : Nat
  m : Nat
  tolerance : Nat
  b : Int
  accuracy : Nat
  accuracy_exp : Nat
  k2 : Int
  k1 : Int
  analog_characteristic : List String
  nominal_reading : Nat
  normal_maximum : Nat
  normal_minimum : Nat
  sensor_maximum_reading : Nat
  sensor_minimum_reading : Nat
  threshold_unr : Nat
  threshold_ucr : Nat
  threshold_unc : Nat
  threshold_lnr : Nat
  threshold_lcr : Nat
  threshold_lnc : Nat
  hysteresis_positive_going : Nat
  hysteresis_negative_going : Nat
  reserved : Nat
  oem : Nat
  device_id_string_type_length : Nat
  device_id_string : List Nat
deriving DecidableEq, Inhabited

/-- The sequential byte pops of `SdrCommon.from_response` (2-byte id, then
version, type and length) followed by `SdrFullSensorRecord.from_data` (which
re-reads from `data[5:]`, i.e. exactly the buffer left after the 5 header
bytes): record key bytes, body bytes through byte 23 (`units_1` is popped
and only its bit fields kept, `units_2`/`units_3` are popped and dropped),
linearization byte 24, `m`/`b`/accuracy/exponent bytes 25-30, the analog
flags and raw readings, the six thresholds in the source's order
(`unr, ucr, unc, lnr, lcr, lnc`), hysteresis, 2 reserved bytes, OEM, the
id-string type/length byte, and the remaining bytes as the id string.
Field expressions are the source's bit manipulations verbatim; `next_id`
is attached separately by `SdrFullSensorRecord.from_data`. -/
def fullPops (data : List Nat) : Option SdrFullSensorRecord :=
  match data with
  | i0 :: i1 :: version :: rtype :: lenght ::
    owner_id :: owner_lun :: number :: entity_id :: entity_instance ::
    initialization :: capabilities :: sensor_type_code :: event_reading_type_code ::
    am0 :: am1 :: dm0 :: dm1 :: dr0 :: dr1 ::
    units_1 :: _units_2 :: _units_3 :: lin :: m_raw :: m_tol ::
    b_raw :: b_acc :: acc_accexp :: rexp_bexp :: analog_characteristics ::
    nominal_reading :: normal_maximum :: normal_minimum ::
    sensor_maximum_reading :: sensor_minimum_reading ::
    t_unr :: t_ucr :: t_unc :: t_lnr :: t_lcr :: t_lnc ::
    hpos :: hneg :: res0 :: res1 :: oem :: idtl :: rest =>
    some
      { data := data, id := i0 + 256 * i1, version := version, type := rtype,
        lenght := lenght, next_id := none,
        owner_id := owner_id, owner_lun := owner_lun, number := number,
        entity_id := entity_id, entity_instance := entity_instance,
        initialization := initList initialization,
        capabilities := capList capabilities,
        sensor_type_code := sensor_type_code,
        event_reading_type_code := event_reading_type_code,
        assertion_mask := am0 + 256 * am1,
        deassertion_mask := dm0 + 256 * dm1,
        discrete_reading_mask := dr0 + 256 * dr1,
        analog_data_format := (units_1 >>> 6) &&& 0x3,
        rate_unit := (units_1 >>> 3) >>> 0x7,
        modifier_unit := (units_1 >>> 1) &&& 0x2,
        percentage := units_1 &&& 0x1,
        linearization := lin &&& 0x7f,
        m := (m_raw &&& 0xff) ||| ((m_tol &&& 0xc0) <<< 2),
        tolerance := m_tol &&& 0x3f,
        b := convert_complement ((b_raw &&& 0xff) ||| ((b_acc &&& 0xc0) <<< 2)) 10,
        accuracy := (b_acc &&& 0x3f) ||| ((acc_accexp &&& 0xf0) <<< 4),
        accuracy_exp := (acc_accexp &&& 0x0c) >>> 2,
        k2 := convert_complement ((rexp_bexp &&& 0xf0) >>> 4) 4,
        k1 := convert_complement (rexp_bexp &&& 0x0f) 4,
        analog_characteristic := analogCharList analog_characteristics,
        nominal_reading := nominal_reading, normal_maximum := normal_maximum,
        normal_minimum := normal_minimum,
        sensor_maximum_reading := sensor_maximum_reading,
        sensor_minimum_reading := sensor_minimum_reading,
        threshold_unr := t_unr, threshold_ucr := t_ucr, threshold_unc := t_unc,
        threshold_lnr := t_lnr, threshold_lcr := t_lcr, threshold_lnc := t_lnc,
        hysteresis_positive_going := hpos, hysteresis_negative_going := hneg,
        reserved := res0 + 256 * res1, oem := oem,
        device_id_string_type_length := idtl,
        device_id_string := rest }
  | _ => none

/-- Constructing a `SdrFullSensorRecord(data, next_id)`: the length guard of
`SdrCommon.from_response`, the byte pops, and the truthiness-guarded
`next_id` assignment of `SdrCommon.__init__`. -/
def SdrFullSensorRecord.from_data (data : List Nat) (next_id : Option Nat) :
    Except PyErr SdrFullSensorRecord :=
  if data.length < 5 then .error .decodingError
  else match fullPops data with
    | some r => .ok { r with next_id := storeNext next_id }
    | none => .error .indexError

/-! ## Analog value converter (`SdrFullSensorRecord` methods) -/

/-- The twelve linearization selector constants of `SdrFullSensorRecord`. -/
def L_LINEAR : Nat := 0
def L_LN : Nat := 1
def L_LOG : Nat := 2
def L_LOG2 : Nat := 3
def L_E : Nat := 4
def L_EXP10 : Nat := 5
def L_EXP2 : Nat := 6
def L_1_X : Nat := 7
def L_SQR : Nat := 8
def L_CUBE : Nat := 9
def L_SQRT : Nat := 10
def L_CUBERT : Nat := 11

/-- The analog data format constants of `SdrFullSensorRecord`. -/
def DATA_FMT_UNSIGNED : Nat := 0
def DATA_FMT_1S_COMPLEMENT : Nat := 1
def DATA_FMT_2S_COMPLEMENT : Nat := 2
def DATA_FMT_NONE : Nat := 3

/-- Symbolic names for the twelve linearization functions returned by the
`SdrFullSensorRecord.l` property. -/
inductive LinFn where
  | linear
  | ln
  | log10
  | log2
  | exp
  | exp10
  | exp2
  | inverse
  | sqr
  | cube
  | sqrt
  | cubert
deriving DecidableEq

/-- Real-valued semantics of each linearization function, following the
Python lambdas of the `l` property (`math.log(x, base)` is
`log x / log base`, `math.pow` with a real exponent is `Real.rpow`). -/
noncomputable def LinFn.eval : LinFn → ℝ → ℝ
  | .linear => fun x => x
  | .ln => Real.log
  | .log10 => fun x => Real.log x / Real.log 10
  | .log2 => fun x => Real.log x / Real.log 2
  | .exp => Real.exp
  | .exp10 => fun x => (10 : ℝ) ^ x
  | .exp2 => fun x => (2 : ℝ) ^ x
  | .inverse => fun x => 1 / x
  | .sqr => fun x => x ^ (2 : ℕ)
  | .cube => fun x => x ^ (3 : ℕ)
  | .sqrt => Real.sqrt
  | .cubert => fun x => x ^ ((1 : ℝ) / 3)

/-- The `SdrFullSensorRecord.l` property: dispatch on the 7-bit linearization
selector, in the source's comparison order, failing with `DecodingError` on
an unknown selector. -/
def SdrFullSensorRecord.l (linearization : Nat) : Except PyErr LinFn :=
  let lin := linearization &&& 0x7f
  if lin = L_LN then .ok .ln
  else if lin = L_LOG then .ok .log10
  else if lin = L_LOG2 then .ok .log2
  else if lin = L_E then .ok .exp
  else if lin = L_EXP10 then .ok .exp10
  else if lin = L_EXP2 then .ok .exp2
  else if lin = L_1_X then .ok .inverse
  else if lin = L_SQR then .ok .sqr
  else if lin = L_CUBE then .ok .cube
  else if lin = L_SQRT then .ok .sqrt
  else if lin = L_CUBERT then .ok .cubert
  else if lin = L_LINEAR then .ok .linear
  else .error .decodingError

/-- The sign-adjustment step of `convert_sensor_raw_to_value`: the raw byte
reinterpreted per `analog_data_format` (formats other than the two
complement forms leave the byte unchanged). -/
def signAdjust (fmt : Nat) (raw : Nat) : Int :=
  if fmt = DATA_FMT_1S_COMPLEMENT then
    if raw &&& 0x80 ≠ 0 then -(((raw &&& 0x7f) ^^^ 0x7f : Nat) : Int) else (raw : Int)
  else if fmt = DATA_FMT_2S_COMPLEMENT then
    if raw &&& 0x80 ≠ 0 then -(((raw &&& 0x7f) ^^^ 0x7f : Nat) : Int) - 1 else (raw : Int)
  else (raw : Int)

/-- `SdrFullSensorRecord.convert_sensor_raw_to_value`: sign-adjust the raw
byte, then apply the linearization function to
`(m * raw + b * 10 ** k1) * 10 ** k2`. -/
noncomputable def convert_sensor_raw_to_value (rec : SdrFullSensorRecord)
    (raw : Nat) : Except PyErr ℝ :=
  (SdrFullSensorRecord.l rec.linearization).map fun f =>
    f.eval (((rec.m : ℝ) * ((signAdjust rec.analog_data_format raw : Int) : ℝ) +
      ((rec.b : Int) : ℝ) * (10 : ℝ) ^ rec.k1) * (10 : ℝ) ^ rec.k2)

/-- Python 2 `round`: round half away from zero (the subsequent `int(...)`
keeps the integral value). -/
noncomputable def pythonRound (x : ℝ) : Int :=
  if x < 0 then -⌊-x + 1 / 2⌋ else ⌊x + 1 / 2⌋

/-- `SdrFullSensorRecord.convert_sensor_value_to_raw`: only the linear
linearization is implemented; the raw value is computed as
`value * 10 ** (-1 * k2) / m - b * 10 ** k1` (a float division, so `m = 0`
raises `ZeroDivisionError` before the sign checks run); the two complement
formats reject a negative input; the rounded result fails with `ValueError`
when it exceeds `0xff`. -/
noncomputable def convert_sensor_value_to_raw (rec : SdrFullSensorRecord)
    (value : ℝ) : Except PyErr Int :=
  if rec.linearization &&& 0x7f ≠ L_LINEAR then .error .notImplemented
  else if rec.m = 0 then .error .zeroDivision
  else
    let raw : ℝ := value * (10 : ℝ) ^ (-1 * rec.k2) / (rec.m : ℝ) -
      ((rec.b : Int) : ℝ) * (10 : ℝ) ^ rec.k1
    if rec.analog_data_format = DATA_FMT_1S_COMPLEMENT ∧ value < 0 then
      .error .notImplemented
    else if rec.analog_data_format = DATA_FMT_2S_COMPLEMENT ∧ value < 0 then
      .error .notImplemented
    else if 0xff < pythonRound raw then .error .valueError
    else .ok (pythonRound raw)

/-! ## The other four record layouts -/

/-- Decoded `SdrCompactSensorRecord` (type 0x02). -/
structure SdrCompactSensorRecord where
  data : List Nat
  id : Nat
  version : Nat
  type : Nat
  lenght : Nat
  next_id : Option Nat
  owner_id : Nat
  owner_lun : Nat
  number : Nat
  entity_id : Nat
  entity_instance : Nat
  sensor_initialization : Nat
  capabilities : Nat
  sensor_type : Nat
  event_reading_type_code : Nat
  assertion_mask : Nat
  deassertion_mask : Nat
  discrete_reading_mask : Nat
  units_1 : Nat
  units_2 : Nat
  units_3 : Nat
  record_sharing : Nat
  positive_going_hysteresis : Nat
  negative_going_hysteresis : Nat
  reserved : Nat
  oem : Nat
  device_id_string_type_length : Nat
  device_id_string : List Nat
deriving DecidableEq, Inhabited

/-- The byte pops of `SdrCompactSensorRecord.from_data` (after the 5 common
header bytes): `record_sharing` is a 2-byte pop and `reserved` a 3-byte pop,
both little-endian. -/
def compactPops (data : List Nat) : Option SdrCompactSensorRecord :=
  match data with
  | i0 :: i1 :: version :: rtype :: lenght ::
    owner_id :: owner_lun :: number :: entity_id :: entity_instance ::
    sensor_initialization :: capabilities :: sensor_type :: event_reading_type_code ::
    am0 :: am1 :: dm0 :: dm1 :: dr0 :: dr1 ::
    units_1 :: units_2 :: units_3 :: rs0 :: rs1 ::
    pos_hys :: neg_hys :: res0 :: res1 :: res2 :: oem :: idtl :: rest =>
    some
      { data := data, id := i0 + 256 * i1, version := version, type := rtype,
        lenght := lenght, next_id := none,
        owner_id := owner_id, owner_lun := owner_lun, number := number,
        entity_id := entity_id, entity_instance := entity_instance,
        sensor_initialization := sensor_initialization,
        capabilities := capabilities, sensor_type := sensor_type,
        event_reading_type_code := event_reading_type_code,
        assertion_mask := am0 + 256 * am1,
        deassertion_mask := dm0 + 256 * dm1,
        discrete_reading_mask := dr0 + 256 * dr1,
        units_1 := units_1, units_2 := units_2, units_3 := units_3,
        record_sharing := rs0 + 256 * rs1,
        positive_going_hysteresis := pos_hys,
        negative_going_hysteresis := neg_hys,
        reserved := res0 + 256 * res1 + 65536 * res2, oem := oem,
        device_id_string_type_length := idtl,
        device_id_string := rest }
  | _ => none

/-- Constructing a `SdrCompactSensorRecord(data, next_id)`. -/
def SdrCompactSensorRecord.from_data (data : List Nat) (next_id : Option Nat) :
    Except PyErr SdrCompactSensorRecord :=
  if data.length < 5 then .error .decodingError
  else match compactPops data with
    | some r => .ok { r with next_id := storeNext next_id }
    | none => .error .indexError

/-- Decoded `SdrEventOnlySensorRecord` (type 0x03): its `from_data` is a
`pass`, so only the common header fields and `next_id` are ever set. -/
structure SdrEventOnlySensorRecord where
  data : List Nat
  id : Nat
  version : Nat
  type : Nat
  lenght : Nat
  next_id : Option Nat
deriving DecidableEq, Inhabited

/-- Constructing a `SdrEventOnlySensorRecord(data, next_id)`: only
`SdrCommon.from_response` runs (header pops), the body is left undecoded. -/
def SdrEventOnlySensorRecord.from_data (data : List Nat) (next_id : Option Nat) :
    Except PyErr SdrEventOnlySensorRecord :=
  if data.length < 5 then .error .decodingError
  else match data with
    | i0 :: i1 :: version :: rtype :: lenght :: _ =>
      .ok { data := data, id := i0 + 256 * i1, version := version,
            type := rtype, lenght := lenght, next_id := storeNext next_id }
    | _ => .error .indexError

/-- Decoded `SdrFruDeviceLocator` (type 0x11). -/
structure SdrFruDeviceLocator where
  data : List Nat
  id : Nat
  version : Nat
  type : Nat
  lenght : Nat
  next_id : Option Nat
  device_access_address : Nat
  fru_device_id : Nat
  logical_physical : Nat
  channel_number : Nat
  reserved : Nat
  device_type : Nat
  device_type_modifier : Nat
  entity_id : Nat
  entity_instance : Nat
  oem : Nat
  device_id_string_type_length : Nat
  device_id_string : List Nat
deriving DecidableEq, Inhabited

/-- The byte pops of `SdrFruDeviceLocator.from_data`: the device access
address byte is shifted right once. -/
def fruPops (data : List Nat) : Option SdrFruDeviceLocator :=
  match data with
  | i0 :: i1 :: version :: rtype :: lenght ::
    daa :: fru_device_id :: logical_physical :: channel_number ::
    reserved :: device_type :: dtm :: entity_id :: entity_instance ::
    oem :: idtl :: rest =>
    some
      { data := data, id := i0 + 256 * i1, version := version, type := rtype,
        lenght := lenght, next_id := none,
        device_access_address := daa >>> 1,
        fru_device_id := fru_device_id, logical_physical := logical_physical,
        channel_number := channel_number, reserved := reserved,
        device_type := device_type, device_type_modifier := dtm,
        entity_id := entity_id, entity_instance := entity_instance,
        oem := oem, device_id_string_type_length := idtl,
        device_id_string := rest }
  | _ => none

/-- Constructing a `SdrFruDeviceLocator(data, next_id)`. -/
def SdrFruDeviceLocator.from_data (data : List Nat) (next_id : Option Nat) :
    Except PyErr SdrFruDeviceLocator :=
  if data.length < 5 then .error .decodingError
  else match fruPops data with
    | some r => .ok { r with next_id := storeNext next_id }
    | none => .error .indexError

/-- Decoded `SdrManagementContollerDeviceLocator` (type 0x12, keeping the
source's class-name spelling). -/
structure SdrManagementContollerDeviceLocator where
  data : List Nat
  id : Nat
  version : Nat
  type : Nat
  lenght : Nat
  next_id : Option Nat
  device_slave_address : Nat
  channel_number : Nat
  power_state_notification : Nat
  global_initialization : Nat
  device_capabilities : Nat
  reserved : Nat
  entity_id : Nat
  entity_instance : Nat
  oem : Nat
  device_id_string_type_length : Nat
  device_id_string : List Nat
deriving DecidableEq, Inhabited

/-- The byte pops of `SdrManagementContollerDeviceLocator.from_data`: the
slave address is shifted right once, the channel number masked to 4 bits,
`global_initialization` is assigned the constant 0 without a pop (as in the
source), and `reserved` is a 3-byte pop. -/
def mcPops (data : List Nat) : Option SdrManagementContollerDeviceLocator :=
  match data with
  | i0 :: i1 :: version :: rtype :: lenght ::
    dsa :: chan :: power_state_notification :: device_capabilities ::
    res0 :: res1 :: res2 :: entity_id :: entity_instance ::
    oem :: idtl :: rest =>
    some
      { data := data, id := i0 + 256 * i1, version := version, type := rtype,
        lenght := lenght, next_id := none,
        device_slave_address := dsa >>> 1,
        channel_number := chan &&& 0xf,
        power_state_notification := power_state_notification,
        global_initialization := 0,
        device_capabilities := device_capabilities,
        reserved := res0 + 256 * res1 + 65536 * res2,
        entity_id := entity_id, entity_instance := entity_instance,
        oem := oem, device_id_string_type_length := idtl,
        device_id_string := rest }
  | _ => none

/-- Constructing a `SdrManagementContollerDeviceLocator(data, next_id)`. -/
def SdrManagementContollerDeviceLocator.from_data (data : List Nat)
    (next_id : Option Nat) : Except PyErr SdrManagementContollerDeviceLocator :=
  if data.length < 5 then .error .decodingError
  else match mcPops data with
    | some r => .ok { r with next_id := storeNext next_id }
    | none => .error .indexError

/-! ## Record decoder dispatch -/

/-- The SDR record type constants. -/
def SDR_TYPE_FULL_SENSOR_RECORD : Nat := 0x01
def SDR_TYPE_COMPACT_SENSOR_RECORD : Nat := 0x02
def SDR_TYPE_EVENT_ONLY_SENSOR_RECORD : Nat := 0x03
def SDR_TYPE_FRU_DEVICE_LOCATOR_RECORD : Nat := 0x11
def SDR_TYPE_MANAGEMENT_CONTROLLER_DEVICE_LOCATOR_RECORD : Nat := 0x12
def SDR_TYPE_MANAGEMENT_CONTROLLER_CONFIRMATION_RECORD : Nat := 0x13
def SDR_TYPE_BMC_MESSAGE_CHANNEL_INFO_RECORD : Nat := 0x14

/-- The tagged union of decoded SDR records. -/
inductive SdrRecord where
  | full (r : SdrFullSensorRecord)
  | compact (r : SdrCompactSensorRecord)
  | eventOnly (r : SdrEventOnlySensorRecord)
  | fruDeviceLocator (r : SdrFruDeviceLocator)
  | mcDeviceLocator (r : SdrManagementContollerDeviceLocator)
deriving DecidableEq, Inhabited

/-- The `next_id` attribute of whichever variant a decoded record is. -/
def SdrRecord.next_id : SdrRecord → Option Nat
  | .full r => r.next_id
  | .compact r => r.next_id
  | .eventOnly r => r.next_id
  | .fruDeviceLocator r => r.next_id
  | .mcDeviceLocator r => r.next_id

/-- `create_sdr(data, next_id)`: reads the record type from `data[3]`
(an out-of-range index is an `IndexError`) and dispatches to the record
class of that type; types 0x13 and 0x14 and every other value raise the
unsupported-SDR-type `DecodingError` carrying the type byte. -/
def create_sdr (data : List Nat) (next_id : Option Nat) :
    Except PyErr SdrRecord :=
  match data.get? 3 with
  | none => .error .indexError
  | some sdr_type =>
    if sdr_type = SDR_TYPE_FULL_SENSOR_RECORD then
      (SdrFullSensorRecord.from_data data next_id).map .full
    else if sdr_type = SDR_TYPE_COMPACT_SENSOR_RECORD then
      (SdrCompactSensorRecord.from_data data next_id).map .compact
    else if sdr_type = SDR_TYPE_EVENT_ONLY_SENSOR_RECORD then
      (SdrEventOnlySensorRecord.from_data data next_id).map .eventOnly
    else if sdr_type = SDR_TYPE_FRU_DEVICE_LOCATOR_RECORD then
      (SdrFruDeviceLocator.from_data data next_id).map .fruDeviceLocator
    else if sdr_type = SDR_TYPE_MANAGEMENT_CONTROLLER_DEVICE_LOCATOR_RECORD then
      (SdrManagementContollerDeviceLocator.from_data data next_id).map .mcDeviceLocator
    else if sdr_type = SDR_TYPE_MANAGEMENT_CONTROLLER_CONFIRMATION_RECORD then
      .error (.unsupportedRecordType sdr_type)
    else if sdr_type = SDR_TYPE_BMC_MESSAGE_CHANNEL_INFO_RECORD then
      .error (.unsupportedRecordType sdr_type)
    else .error (.unsupportedRecordType sdr_type)

/-! ## Paginated record reader (`Sdr.get_sdr`)

The transport is modelled by an explicit script: the list of responses the
BMC returns to the successive `GetDeviceSdr` requests.  Sleeps and the
reservation re-acquisition are I/O effects with no influence on the data
flow, so they do not appear in the embedding; the decremented retry budget,
the accumulator and the request offset (always the accumulator's length in
the source) do. -/

/-- A `GetDeviceSdr` response: completion code, the successor record id and
the returned chunk of record data. -/
structure GetSdrRsp where
  completion_code : Nat
  next_record_id : Nat
  record_data : List Nat
deriving DecidableEq, Inhabited

/-- Modelled from the spec: the completion-code constants of
`pyipmi.msgs.constants` consumed by this module, with the standard IPMI
values (`Success 0x00`, reservation canceled `0xc5`, cannot return requested
number of bytes `0xca`, response could not be provided `0xce`); only their
distinctness matters below. -/
def CC_RES_CANCELED : Nat := 0xc5

/-- Modelled from the spec: `constants.CC_CANT_RET_NUM_REQ_BYTES`. -/
def CC_CANT_RET_NUM_REQ_BYTES : Nat := 0xca

/-- Modelled from the spec: `constants.CC_RESP_COULD_NOT_BE_PRV`. -/
def CC_RESP_COULD_NOT_BE_PRV : Nat := 0xce

/-- The header phase of `Sdr.get_sdr`: request 5 bytes at offset 0 with a
budget of 5 attempts; a zero completion code breaks out of the loop with the
response (and the unconsumed remainder of the script), `ReservationCanceled`
re-acquires and retries, `ResponseCouldNotBeProvided` backs off and retries,
anything else raises `CompletionCodeError`. -/
def headerLoop (script : List GetSdrRsp) (retry : Nat) :
    Except PyErr (GetSdrRsp × List GetSdrRsp) :=
  match retry, script with
  | 0, _ => .error .retryError
  | _ + 1, [] => .error .noResponse
  | r + 1, rsp :: rest =>
    if rsp.completion_code = 0 then .ok (rsp, rest)
    else if rsp.completion_code = CC_RES_CANCELED then headerLoop rest r
    else if rsp.completion_code = CC_RESP_COULD_NOT_BE_PRV then headerLoop rest r
    else .error (.completionError rsp.completion_code)

/-- The body phase of `Sdr.get_sdr`: accumulate `record_data` until
`record_length` bytes are collected, with a budget of 20 attempts and a page
size (`max_req_len`) starting at 20.  `CantReturnRequestedLength` shrinks
the page size by 4 and forces exhaustion when it reaches 0;
`ReservationCanceled` discards the whole accumulator, resets the offset to 0
(the offset is identically the accumulator length) and decrements the
budget; the literal `0xce` code backs off and decrements; any other non-zero
code raises `CompletionCodeError`; a success appends the returned bytes and
stops once the accumulated length reaches `record_length`. -/
def bodyLoop (record_length : Nat) : List GetSdrRsp → List Nat → Nat → Nat →
    Except PyErr (List Nat)
  | [], _, retry, _ =>
    if retry = 0 then .error .retryError else .error .noResponse
  | rsp :: rest, record_data, retry, max_req_len =>
    if retry = 0 then .error .retryError
    else if rsp.completion_code = CC_CANT_RET_NUM_REQ_BYTES then
      if max_req_len - 4 = 0 then
        bodyLoop record_length rest record_data 0 (max_req_len - 4)
      else bodyLoop record_length rest record_data retry (max_req_len - 4)
    else if rsp.completion_code = CC_RES_CANCELED then
      bodyLoop record_length rest [] (retry - 1) max_req_len
    else if rsp.completion_code = 0xce then
      bodyLoop record_length rest record_data (retry - 1) max_req_len
    else if rsp.completion_code ≠ 0 then
      .error (.completionError rsp.completion_code)
    else
      let rd := record_data ++ rsp.record_data
      if record_length ≤ rd.length then .ok rd
      else bodyLoop record_length rest rd retry max_req_len

/-- `Sdr.get_sdr(record_id)` against a response script: run the header
phase, read `record_id`/`version`/`type`/`record_length` out of the header
bytes (the record length is the popped length byte plus the 5 header bytes),
run the body phase on the rest of the script starting from the header bytes
already accumulated, and decode via `create_sdr`, attaching the successor id
from the header response. -/
def Sdr.get_sdr (script : List GetSdrRsp) : Except PyErr SdrRecord := do
  let (rsp, rest) ← headerLoop script 5
  let next_record_id := rsp.next_record_id
  let record_data := rsp.record_data
  match record_data with
  | _ :: _ :: _ :: _ :: len :: _ =>
    let record_length := len + 5
    let data ← bodyLoop record_length rest record_data 20 20
    create_sdr data (some next_record_id)
  | _ => .error .indexError

/-! ## Repository enumerator and sensor reading -/

/-- The loop of `Sdr.sdr_entries`, parametrized over the record reader
`get_sdr_f record_id reservation_id` (the source calls `self.get_sdr`): read
the record, yield it, stop after yielding when its `next_id` is `0xffff`,
else continue from `next_id`.  Reading `next_id` on a record whose attribute
was never assigned is an `AttributeError`; `fuel` totalizes the unbounded
`while True`. -/
def sdrEntriesAux (get_sdr_f : Nat → Nat → Except PyErr SdrRecord)
    (reservation_id : Nat) : Nat → Nat → Except PyErr (List SdrRecord)
  | 0, _ => .error .outOfFuel
  | fuel + 1, record_id =>
    match get_sdr_f record_id reservation_id with
    | .error e => .error e
    | .ok s =>
      match s.next_id with
      | none => .error .attributeError
      | some nid =>
        if nid = 0xffff then .ok [s]
        else (sdrEntriesAux get_sdr_f reservation_id fuel nid).map (s :: ·)

/-- `Sdr.sdr_entries()`: one up-front reservation, then the chained reads
starting at record id 0. -/
def Sdr.sdr_entries (get_sdr_f : Nat → Nat → Except PyErr SdrRecord)
    (reservation_id : Nat) (fuel : Nat) : Except PyErr (List SdrRecord) :=
  sdrEntriesAux get_sdr_f reservation_id fuel 0

/-- A `GetSensorReading` response: completion code, the raw reading byte,
the update-in-progress flag and the two optional state masks. -/
structure SensorReadingRsp where
  completion_code : Nat
  sensor_reading : Nat
  update_in_progress : Bool
  states1 : Option Nat
  states2 : Option Nat
deriving DecidableEq, Inhabited

/-- `Sdr.get_sensor_reading(sensor_number)` on a given response: check the
completion code, blank the reading while an update is in progress, start
`states = None`, overwrite it with `states1` when present, then or-in
`states2 << 8` when present — which is a `TypeError` when `states x` is still
`None` because `states1` was absent. -/
def Sdr.get_sensor_reading (rsp : SensorReadingRsp) :
    Except PyErr (Option Nat × Option Nat) :=
  if rsp.completion_code ≠ 0 then .error (.completionError rsp.completion_code)
  else
    let reading := if rsp.update_in_progress then none else some rsp.sensor_reading
    let states : Option Nat := none
    let states := match rsp.states1 with
      | some s1 => some s1
      | none => states
    match rsp.states2 with
    | some s2 =>
      match states with
      | some s => .ok (reading, some (s ||| (s2 <<< 8)))
      | none => .error .typeError
    | none => .ok (reading, states)

/-! ## Spec-side definitions

The following definitions follow the specification's words (for the claims
that compare the code against the spec's description); each is compared with
the corresponding source-translated definition in a theorem below. -/

/-- Spec-side sign adjustment of §4.5 step 1: `unsigned` and `none` leave
the byte unchanged, `1s_complement` with bit 7 set becomes
`-((raw & 0x7f) ^ 0x7f)`, `2s_complement` additionally subtracts 1. -/
def specSignAdjust (fmt : Nat) (raw : Nat) : Int :=
  if fmt = DATA_FMT_1S_COMPLEMENT ∧ raw &&& 0x80 ≠ 0 then
    -(((raw &&& 0x7f) ^^^ 0x7f : Nat) : Int)
  else if fmt = DATA_FMT_2S_COMPLEMENT ∧ raw &&& 0x80 ≠ 0 then
    -(((raw &&& 0x7f) ^^^ 0x7f : Nat) : Int) - 1
  else (raw : Int)

/-- Spec-side linearization dispatch of §4.5 step 3: the 7-bit selector
values 0-11 select identity, natural log, log base 10, log base 2, exp,
`10^x`, `2^x`, reciprocal, square, cube, square root and cube root; every
other selector fails with `DecodingError`. -/
noncomputable def specLinearize (selector : Nat) : Except PyErr (ℝ → ℝ) :=
  match selector &&& 0x7f with
  | 0 => .ok fun x => x
  | 1 => .ok Real.log
  | 2 => .ok fun x => Real.logb 10 x
  | 3 => .ok fun x => Real.logb 2 x
  | 4 => .ok Real.exp
  | 5 => .ok fun x => (10 : ℝ) ^ x
  | 6 => .ok fun x => (2 : ℝ) ^ x
  | 7 => .ok fun x => x⁻¹
  | 8 => .ok fun x => x ^ (2 : ℕ)
  | 9 => .ok fun x => x ^ (3 : ℕ)
  | 10 => .ok Real.sqrt
  | 11 => .ok fun x => x ^ ((3 : ℝ))⁻¹
  | _ => .error .decodingError

/-- Spec-side raw-to-value conversion of §4.5: sign-adjust, compute
`scaled = m * raw + b * 10^k1`, return `linearize (scaled * 10^k2)`. -/
noncomputable def specRawToValue (rec : SdrFullSensorRecord) (raw : Nat) :
    Except PyErr ℝ :=
  (specLinearize rec.linearization).map fun f =>
    let scaled : ℝ := (rec.m : ℝ) *
        ((specSignAdjust rec.analog_data_format raw : Int) : ℝ) +
      ((rec.b : Int) : ℝ) * (10 : ℝ) ^ rec.k1
    f (scaled * (10 : ℝ) ^ rec.k2)

/-- Spec-side value-to-raw conversion of §4.5: `Unsupported` when the
linearization is not linear or when a complement format meets a negative
value, else `raw = round(value * 10^-k2 / m - b * 10^k1)`, failing with
`OutOfRange` when the rounded result exceeds an unsigned byte. -/
noncomputable def specValueToRaw (rec : SdrFullSensorRecord) (value : ℝ) :
    Except PyErr Int :=
  if rec.linearization &&& 0x7f ≠ L_LINEAR then .error .notImplemented
  else if (rec.analog_data_format = DATA_FMT_1S_COMPLEMENT ∨
      rec.analog_data_format = DATA_FMT_2S_COMPLEMENT) ∧ value < 0 then
    .error .notImplemented
  else if 0xff < pythonRound (value * (10 : ℝ) ^ (-rec.k2) / (rec.m : ℝ) -
      ((rec.b : Int) : ℝ) * (10 : ℝ) ^ rec.k1) then .error .valueError
  else .ok (pythonRound (value * (10 : ℝ) ^ (-rec.k2) / (rec.m : ℝ) -
      ((rec.b : Int) : ℝ) * (10 : ℝ) ^ rec.k1))

/-- Spec-side record-decoder dispatch table of §4.4, keyed on the record
type byte: `0x01`-full, `0x02`-compact, `0x03`-event-only,
`0x11`-FRU-device-locator, `0x12`-management-controller-device-locator, and
`UnsupportedRecordType` for `0x13`, `0x14` and every other value. -/
def createSdrSpec (data : List Nat) (next_id : Option Nat) (sdr_type : Nat) :
    Except PyErr SdrRecord :=
  if sdr_type = 0x01 then (SdrFullSensorRecord.from_data data next_id).map .full
  else if sdr_type = 0x02 then (SdrCompactSensorRecord.from_data data next_id).map .compact
  else if sdr_type = 0x03 then (SdrEventOnlySensorRecord.from_data data next_id).map .eventOnly
  else if sdr_type = 0x11 then (SdrFruDeviceLocator.from_data data next_id).map .fruDeviceLocator
  else if sdr_type = 0x12 then (SdrManagementContollerDeviceLocator.from_data data next_id).map .mcDeviceLocator
  else .error (.unsupportedRecordType sdr_type)

/-! ## Shared helper lemmas -/

/-- Masking any natural number with `0x2` yields 0 or 2. -/
lemma and_two_cases (n : Nat) : n &&& 2 = 0 ∨ n &&& 2 = 2 := by
  have h : n &&& 2 ^ 1 = (n.testBit 1).toNat * 2 ^ 1 := Nat.and_two_pow n 1
  cases ht : n.testBit 1
  · left; simpa [ht] using h
  · right; simpa [ht] using h

/-- Shifting a byte right by 3 and then by 7 clears it. -/
lemma shiftRight_three_seven (u : Nat) (hu : u < 256) : (u >>> 3) >>> 7 = 0 := by
  rw [← Nat.shiftRight_add, Nat.shiftRight_eq_div_pow]
  exact Nat.div_eq_of_lt (by omega)

/-- Python 2 `round` is the identity on integral values. -/
lemma pythonRound_intCast (n : Int) : pythonRound (n : ℝ) = n := by
  unfold pythonRound
  split_ifs with h
  · have : (-(n : ℝ) + 1 / 2) = ((-n : Int) : ℝ) + 1 / 2 := by push_cast; ring
    rw [this, Int.floor_int_add]
    norm_num
  · rw [Int.floor_int_add]
    norm_num

/-- Any successful `SdrFullSensorRecord` decode stores the truthiness-guarded
successor id. -/
lemma full_from_data_next (data : List Nat) (next_id : Option Nat)
    (r : SdrFullSensorRecord)
    (h : SdrFullSensorRecord.from_data data next_id = .ok r) :
    r.next_id = storeNext next_id := by
  unfold SdrFullSensorRecord.from_data at h
  split at h
  · simp at h
  · split at h
    · cases h; rfl
    · simp at h

/-- Any successful `SdrCompactSensorRecord` decode stores the
truthiness-guarded successor id. -/
lemma compact_from_data_next (data : List Nat) (next_id : Option Nat)
    (r : SdrCompactSensorRecord)
    (h : SdrCompactSensorRecord.from_data data next_id = .ok r) :
    r.next_id = storeNext next_id := by
  unfold SdrCompactSensorRecord.from_data at h
  split at h
  · simp at h
  · split at h
    · cases h; rfl
    · simp at h

/-- Any successful `SdrEventOnlySensorRecord` decode stores the
truthiness-guarded successor id. -/
lemma eventOnly_from_data_next (data : List Nat) (next_id : Option Nat)
    (r : SdrEventOnlySensorRecord)
    (h : SdrEventOnlySensorRecord.from_data data next_id = .ok r) :
    r.next_id = storeNext next_id := by
  unfold SdrEventOnlySensorRecord.from_data at h
  split at h
  · simp at h
  · split at h
    · cases h; rfl
    · simp at h

/-- Any successful `SdrFruDeviceLocator` decode stores the
truthiness-guarded successor id. -/
lemma fru_from_data_next (data : List Nat) (next_id : Option Nat)
    (r : SdrFruDeviceLocator)
    (h : SdrFruDeviceLocator.from_data data next_id = .ok r) :
    r.next_id = storeNext next_id := by
  unfold SdrFruDeviceLocator.from_data at h
  split at h
  · simp at h
  · split at h
    · cases h; rfl
    · simp at h

/-- Any successful `SdrManagementContollerDeviceLocator` decode stores the
truthiness-guarded successor id. -/
lemma mc_from_data_next (data : List Nat) (next_id : Option Nat)
    (r : SdrManagementContollerDeviceLocator)
    (h : SdrManagementContollerDeviceLocator.from_data data next_id = .ok r) :
    r.next_id = storeNext next_id := by
  unfold SdrManagementContollerDeviceLocator.from_data at h
  split at h
  · simp at h
  · split at h
    · cases h; rfl
    · simp at h

/-! ## Claim theorems -/

/-- C3: given a record whose record-type byte (`data[3]`) is present, the
record decoder `create_sdr` behaves exactly as the spec's dispatch table
`createSdrSpec`: `0x01`/`0x02`/`0x03`/`0x11`/`0x12` go to the Full, Compact,
EventOnly, FruDeviceLocator and ManagementControllerDeviceLocator parsers
respectively, and `0x13`, `0x14` and every other value fail with the
unsupported-record-type error carrying the record type, with no other error
raised in those cases. -/
theorem C3_create_sdr_dispatch (data : List Nat) (next_id : Option Nat)
    (t : Nat) (h : data.get? 3 = some t) :
    create_sdr data next_id = createSdrSpec data next_id t := by
  unfold create_sdr createSdrSpec
  rw [h]
  simp only [SDR_TYPE_FULL_SENSOR_RECORD, SDR_TYPE_COMPACT_SENSOR_RECORD,
    SDR_TYPE_EVENT_ONLY_SENSOR_RECORD, SDR_TYPE_FRU_DEVICE_LOCATOR_RECORD,
    SDR_TYPE_MANAGEMENT_CONTROLLER_DEVICE_LOCATOR_RECORD,
    SDR_TYPE_MANAGEMENT_CONTROLLER_CONFIRMATION_RECORD,
    SDR_TYPE_BMC_MESSAGE_CHANNEL_INFO_RECORD]
  split_ifs <;> rfl

/-- Witness for C3 at the unsupported record type `0x13`. -/
theorem C3_create_sdr_dispatch_witness :
    ([0, 0, 0x51, 0x13, 0] : List Nat).get? 3 = some 0x13 ∧
    create_sdr [0, 0, 0x51, 0x13, 0] none =
      createSdrSpec [0, 0, 0x51, 0x13, 0] none 0x13 :=
  ⟨rfl, C3_create_sdr_dispatch [0, 0, 0x51, 0x13, 0] none 0x13 rfl⟩

/-- C10: every byte sequence accepted by the full-sensor-record parser
decodes `rate_unit` to 0 (because `(units_1 >> 3) >> 0x7` shifts the byte
out) and `modifier_unit` to 0 or 2 (because of the `& 0x2` mask). -/
theorem C10_rate_unit_zero (data : List Nat) (next_id : Option Nat)
    (hbytes : ∀ x ∈ data, x < 256) (r : SdrFullSensorRecord)
    (h : SdrFullSensorRecord.from_data data next_id = .ok r) :
    r.rate_unit = 0 ∧ (r.modifier_unit = 0 ∨ r.modifier_unit = 2) := by
  unfold SdrFullSensorRecord.from_data at h
  split at h
  · simp at h
  · split at h
    · cases h
      rename_i r' heq
      unfold fullPops at heq
      split at heq
      · cases heq
        refine ⟨shiftRight_three_seven _ (hbytes _ ?_), and_two_cases _⟩
        simp
      · cases heq
    · simp at h

/-- A concrete 48-byte full sensor record whose `units_1` byte is `0xff`. -/
def c10data : List Nat :=
  [0, 0, 0x51, 0x01, 43,
   0x20, 0, 1, 0, 0,
   0, 0, 1, 1,
   0, 0, 0, 0, 0, 0,
   0xff, 0, 0, 0, 1, 0,
   0, 0, 0, 0, 0,
   0, 0, 0, 0, 0,
   1, 2, 3, 4, 5, 6,
   0, 0, 0, 0, 0, 0]

/-- The record decoded from `c10data`. -/
def c10rec : SdrFullSensorRecord :=
  match SdrFullSensorRecord.from_data c10data none with
  | .ok r => r
  | .error _ => default

/-- Witness for C10: the concrete record `c10rec` (decoded with
`units_1 = 0xff`) still has `rate_unit = 0` and `modifier_unit ∈ {0, 2}`. -/
theorem C10_rate_unit_zero_witness :
    (∀ x ∈ c10data, x < 256) ∧
    (c10rec.rate_unit = 0 ∧ (c10rec.modifier_unit = 0 ∨ c10rec.modifier_unit = 2)) :=
  ⟨by decide, C10_rate_unit_zero c10data none (by decide) c10rec rfl⟩

/-- A full sensor record byte stream with symbolic threshold bytes at the
six threshold positions (data indices 36-41) and zeros elsewhere. -/
def c8data (t1 t2 t3 t4 t5 t6 : Nat) : List Nat :=
  [0, 0, 0x51, 0x01, 43,
   0x20, 0, 1, 0, 0,
   0, 0, 1, 1,
   0, 0, 0, 0, 0, 0,
   0, 0, 0, 0, 1, 0,
   0, 0, 0, 0, 0,
   0, 0, 0, 0, 0] ++
  t1 :: t2 :: t3 :: t4 :: t5 :: t6 ::
  [0, 0, 0, 0, 0, 0]

/-- Counterexample for C8: with threshold bytes `1, 2, 3, 4, 5, 6` the
parser assigns the fourth threshold byte to `lnr` and the sixth to `lnc`
(`(lnr, lnc) = (4, 6)`), not `(6, 4)` as the claimed byte order
`unr, ucr, unc, lnc, lcr, lnr` would require. -/
theorem C8_threshold_order_counterexample :
    (SdrFullSensorRecord.from_data (c8data 1 2 3 4 5 6) none).map
        (fun r => (r.threshold_lnr, r.threshold_lnc)) = .ok (4, 6) ∧
    ¬(((4 : Nat), (6 : Nat)) = ((6 : Nat), (4 : Nat))) :=
  ⟨rfl, by decide⟩

/-- C8 amended: the full-sensor-record parser consumes the six threshold
bytes in the order `unr, ucr, unc, lnr, lcr, lnc` (upper thresholds first,
then the lower ones from non-recoverable down), assigning each consumed byte
to the threshold field of that name. -/
theorem C8_threshold_order_amended (t1 t2 t3 t4 t5 t6 : Nat) :
    (SdrFullSensorRecord.from_data (c8data t1 t2 t3 t4 t5 t6) none).map
        (fun r => (r.threshold_unr, r.threshold_ucr, r.threshold_unc,
          r.threshold_lnr, r.threshold_lcr, r.threshold_lnc)) =
      .ok (t1, t2, t3, t4, t5, t6) := rfl

/-- A response script whose header response reports successor id 0: one
successful header read of an event-only record (type 0x03, body length 0)
and one empty body read. -/
def c9script : List GetSdrRsp :=
  [{ completion_code := 0, next_record_id := 0,
     record_data := [0x0a, 0, 0x51, 0x03, 0] },
   { completion_code := 0, next_record_id := 0, record_data := [] }]

/-- Counterexample for C9: when the repository-supplied successor value is
0, the record returned by `get_sdr` does *not* carry it — the truthiness
test of `SdrCommon.__init__` skips the assignment, so the decoded record's
`next_id` is unset (`none`) rather than `some 0`. -/
theorem C9_next_id_zero_counterexample :
    (Sdr.get_sdr c9script).map SdrRecord.next_id = .ok none ∧
    (Except.ok (none : Option Nat) : Except PyErr (Option Nat)) ≠
      .ok (some 0) :=
  ⟨rfl, by decide⟩

/-- C9 amended: every record successfully decoded (and hence every record
returned by `get_sdr`, which calls `create_sdr` with the repository-supplied
successor) carries `next_id` for every *non-zero* successor value; a
successor of 0 (or an absent one) leaves the attribute unset. -/
theorem C9_next_id_amended (data : List Nat) (v : Nat) (hv : v ≠ 0)
    (r : SdrRecord) (h : create_sdr data (some v) = .ok r) :
    SdrRecord.next_id r = some v := by
  have hstore : storeNext (some v) = some v := by simp [storeNext, hv]
  unfold create_sdr at h
  split at h
  · simp at h
  · split_ifs at h
    · cases hf : SdrFullSensorRecord.from_data data (some v) with
      | error e => rw [hf] at h; simp [Except.map] at h
      | ok rr =>
        rw [hf] at h; simp only [Except.map] at h; cases h
        show rr.next_id = some v
        rw [full_from_data_next data (some v) rr hf, hstore]
    · cases hf : SdrCompactSensorRecord.from_data data (some v) with
      | error e => rw [hf] at h; simp [Except.map] at h
      | ok rr =>
        rw [hf] at h; simp only [Except.map] at h; cases h
        show rr.next_id = some v
        rw [compact_from_data_next data (some v) rr hf, hstore]
    · cases hf : SdrEventOnlySensorRecord.from_data data (some v) with
      | error e => rw [hf] at h; simp [Except.map] at h
      | ok rr =>
        rw [hf] at h; simp only [Except.map] at h; cases h
        show rr.next_id = some v
        rw [eventOnly_from_data_next data (some v) rr hf, hstore]
    · cases hf : SdrFruDeviceLocator.from_data data (some v) with
      | error e => rw [hf] at h; simp [Except.map] at h
      | ok rr =>
        rw [hf] at h; simp only [Except.map] at h; cases h
        show rr.next_id = some v
        rw [fru_from_data_next data (some v) rr hf, hstore]
    · cases hf : SdrManagementContollerDeviceLocator.from_data data (some v) with
      | error e => rw [hf] at h; simp [Except.map] at h
      | ok rr =>
        rw [hf] at h; simp only [Except.map] at h; cases h
        show rr.next_id = some v
        rw [mc_from_data_next data (some v) rr hf, hstore]

/-- A minimal event-only record byte stream. -/
def c9amData : List Nat := [0x0a, 0, 0x51, 0x03, 0]

/-- The record decoded from `c9amData` with successor id 5. -/
def c9amRec : SdrRecord :=
  match create_sdr c9amData (some 5) with
  | .ok r => r
  | .error _ => default

/-- Witness for the amended C9 at the non-zero successor value 5. -/
theorem C9_next_id_amended_witness :
    (5 : Nat) ≠ 0 ∧ SdrRecord.next_id c9amRec = some 5 :=
  ⟨by decide, C9_next_id_amended c9amData 5 (by decide) c9amRec rfl⟩

/-- A sensor-reading response carrying only the second state mask. -/
def c7badRsp : SensorReadingRsp :=
  { completion_code := 0, sensor_reading := 5, update_in_progress := false,
    states1 := none, states2 := some 1 }

/-- Counterexample for C7: on a response where only `states2` is present the
code does not return the single present mask — `states |= states2 << 8`
or-s into `None` and raises `TypeError` instead of returning a reading. -/
theorem C7_states2_only_counterexample :
    Sdr.get_sensor_reading c7badRsp = .error .typeError ∧
    (Except.error PyErr.typeError : Except PyErr (Option Nat × Option Nat)) ≠
      .ok (some 5, some 256) :=
  ⟨rfl, by decide⟩

/-- C7 amended: on a zero completion code, the reading is `None` exactly
when update-in-progress is reported (else the raw byte); `states` is
`states1 | states2 << 8` when both masks are present, `states1` when only it
is present, `None` when neither is — but when only `states2` is present the
call fails with `TypeError` instead of returning it. -/
theorem C7_get_sensor_reading_amended (rsp : SensorReadingRsp)
    (h : rsp.completion_code = 0) :
    Sdr.get_sensor_reading rsp =
      match rsp.states1, rsp.states2 with
      | some s1, some s2 =>
        .ok (if rsp.update_in_progress then none else some rsp.sensor_reading,
          some (s1 ||| (s2 <<< 8)))
      | some s1, none =>
        .ok (if rsp.update_in_progress then none else some rsp.sensor_reading,
          some s1)
      | none, some _ => .error .typeError
      | none, none =>
        .ok (if rsp.update_in_progress then none else some rsp.sensor_reading,
          none) := by
  obtain ⟨cc, sr, uip, s1, s2⟩ := rsp
  simp only at h
  subst h
  cases s1 <;> cases s2 <;> rfl

/-- A sensor-reading response carrying only the first state mask. -/
def c7okRsp : SensorReadingRsp :=
  { completion_code := 0, sensor_reading := 5, update_in_progress := false,
    states1 := some 3, states2 := none }

/-- Witness for the amended C7: only `states1` present returns it as the
state mask, with the raw reading. -/
theorem C7_get_sensor_reading_amended_witness :
    c7okRsp.completion_code = 0 ∧
    Sdr.get_sensor_reading c7okRsp = .ok (some 5, some 3) :=
  ⟨rfl, C7_get_sensor_reading_amended c7okRsp rfl⟩

/-- C6: the repository enumerator starts at record id 0 under the one
up-front reservation, yields each read record, advances to its `next_id`,
and stops immediately after yielding the record whose `next_id` is
`0xffff`; for a reader whose successor chain is `0 → 5 → 0xffff` it yields
exactly the two records. -/
theorem C6_sdr_entries_chain (get_sdr_f : Nat → Nat → Except PyErr SdrRecord)
    (rid fuel : Nat) (r0 r1 : SdrRecord) (hfuel : 2 ≤ fuel)
    (h0 : get_sdr_f 0 rid = .ok r0) (h0n : SdrRecord.next_id r0 = some 5)
    (h1 : get_sdr_f 5 rid = .ok r1)
    (h1n : SdrRecord.next_id r1 = some 0xffff) :
    Sdr.sdr_entries get_sdr_f rid fuel = .ok [r0, r1] := by
  obtain ⟨f, rfl⟩ : ∃ f, fuel = f + 2 := ⟨fuel - 2, by omega⟩
  simp [Sdr.sdr_entries, sdrEntriesAux, Except.map, h0, h0n, h1, h1n]

/-- The first mock record of the C6 witness chain (successor id 5). -/
def c6rec0 : SdrRecord := SdrRecord.eventOnly ⟨[], 0, 0x51, 3, 0, some 5⟩

/-- The terminal mock record of the C6 witness chain (successor 0xffff). -/
def c6rec1 : SdrRecord := SdrRecord.eventOnly ⟨[], 0, 0x51, 3, 0, some 0xffff⟩

/-- The mock reader of the C6 witness: id 0 yields `c6rec0`, everything
else yields `c6rec1`. -/
def c6reader : Nat → Nat → Except PyErr SdrRecord := fun record_id _ =>
  if record_id = 0 then .ok c6rec0 else .ok c6rec1

/-- Witness for C6 on the mock chain `0 → 5 → 0xffff`. -/
theorem C6_sdr_entries_chain_witness :
    2 ≤ 2 ∧ c6reader 0 7 = .ok c6rec0 ∧
    SdrRecord.next_id c6rec0 = some 5 ∧ c6reader 5 7 = .ok c6rec1 ∧
    SdrRecord.next_id c6rec1 = some 0xffff ∧
    Sdr.sdr_entries c6reader 7 2 = .ok [c6rec0, c6rec1] :=
  ⟨by decide, rfl, rfl, rfl, rfl,
    C6_sdr_entries_chain c6reader 7 2 c6rec0 c6rec1 (by decide) rfl rfl rfl rfl⟩

/-- The source's `l` dispatch, composed with the function semantics, agrees
with the spec's twelve-way linearization table on every selector. -/
lemma l_eval_eq_spec (sel : Nat) :
    (SdrFullSensorRecord.l sel).map LinFn.eval = specLinearize sel := by
  have hk : sel &&& 0x7f < 128 := by
    have h := Nat.and_le_right (n := sel) (m := 0x7f)
    omega
  obtain ⟨k, hke⟩ : ∃ k, sel &&& 0x7f = k := ⟨_, rfl⟩
  rw [hke] at hk
  unfold SdrFullSensorRecord.l specLinearize
  rw [hke]
  interval_cases k <;>
    first
      | rfl
      | (refine congrArg Except.ok ?_
         funext x
         simp [LinFn.eval, Real.logb, one_div])

/-- The source's inline sign adjustment agrees with the spec's case
description for every format and raw byte. -/
lemma signAdjust_eq_spec (fmt raw : Nat) :
    signAdjust fmt raw = specSignAdjust fmt raw := by
  unfold signAdjust specSignAdjust
  split_ifs <;> first | rfl | tauto

/-- C1: `convert_sensor_raw_to_value` behaves exactly as the spec's
description `specRawToValue`: the raw byte is sign-adjusted per
`analog_data_format` (unsigned and none unchanged, the two complement
formats by the stated formulas), then the function selected by the 7-bit
linearization selector from the twelve-entry table is applied to
`(m * raw + b * 10^k1) * 10^k2`, and every selector outside 0-11 fails
with `DecodingError`. -/
theorem C1_raw_to_value_follows_spec (rec : SdrFullSensorRecord) (raw : Nat) :
    convert_sensor_raw_to_value rec raw = specRawToValue rec raw := by
  unfold convert_sensor_raw_to_value specRawToValue
  rw [← l_eval_eq_spec rec.linearization]
  simp only [signAdjust_eq_spec]
  cases SdrFullSensorRecord.l rec.linearization with
  | error e => rfl
  | ok fn => simp [Except.map]

/-- C5: with a non-zero `m` (the spec's formula divides by `m`),
`convert_sensor_value_to_raw` behaves exactly as the spec's description
`specValueToRaw`: `Unsupported` when the linearization is not linear or a
complement format meets a negative value, else
`round(value * 10^-k2 / m - b * 10^k1)`, with `OutOfRange` when the rounded
result exceeds `0xff`. -/
theorem C5_value_to_raw_follows_spec (rec : SdrFullSensorRecord) (value : ℝ)
    (hm : rec.m ≠ 0) :
    convert_sensor_value_to_raw rec value = specValueToRaw rec value := by
  unfold convert_sensor_value_to_raw specValueToRaw
  simp only [neg_one_mul]
  split_ifs <;> first | rfl | tauto

/-- A concrete 48-byte full sensor record with `m = 1`, linear
linearization and unsigned format. -/
def c5data : List Nat :=
  [0, 0, 0x51, 0x01, 43,
   0x20, 0, 1, 0, 0,
   0, 0, 1, 1,
   0, 0, 0, 0, 0, 0,
   0, 0, 0, 0, 1, 0,
   0, 0, 0, 0, 0,
   0, 0, 0, 0, 0,
   1, 2, 3, 4, 5, 6,
   0, 0, 0, 0, 0, 0]

/-- The record decoded from `c5data`. -/
def c5rec : SdrFullSensorRecord :=
  match SdrFullSensorRecord.from_data c5data none with
  | .ok r => r
  | .error _ => default

/-- Witness for C5 at the concrete record `c5rec` and value 0. -/
theorem C5_value_to_raw_follows_spec_witness :
    c5rec.m ≠ 0 ∧
    convert_sensor_value_to_raw c5rec 0 = specValueToRaw c5rec 0 :=
  ⟨by decide, C5_value_to_raw_follows_spec c5rec 0 (by decide)⟩

/-- A concrete 48-byte full sensor record with `m = 2`, `b = -4`
(10-bit two's complement `0x3fc` split over bytes 27-28), `k1 = k2 = 0`,
linear linearization and unsigned format. -/
def c4data : List Nat :=
  [0, 0, 0x51, 0x01, 43,
   0x20, 0, 1, 0, 0,
   0, 0, 1, 1,
   0, 0, 0, 0, 0, 0,
   0, 0, 0, 0, 2, 0,
   0xfc, 0xc0, 0, 0, 0,
   0, 0, 0, 0, 0,
   1, 2, 3, 4, 5, 6,
   0, 0, 0, 0, 0, 0]

/-- The record decoded from `c4data`. -/
def c4rec : SdrFullSensorRecord :=
  match SdrFullSensorRecord.from_data c4data none with
  | .ok r => r
  | .error _ => default

/-- C4: the round-trip fails on the code.  For the decoded record `c4rec`
(`m = 2`, `b = -4`, `k1 = k2 = 0`, linear, unsigned) and raw byte 1 — whose
sign-adjusted value 1 is non-negative, with `m ≠ 0` and a rounded inverse
result 3 inside the unsigned-byte range — `raw_to_value` yields `-2` but
`value_to_raw` then yields 3, not 1: the source divides by `m` *before*
subtracting `b * 10^k1`, which is not the inverse of
`(m * raw + b * 10^k1) * 10^k2`. -/
theorem C4_roundtrip_code_bug :
    convert_sensor_raw_to_value c4rec 1 = .ok (-2) ∧
    convert_sensor_value_to_raw c4rec (-2) = .ok 3 ∧
    (3 : Int) ≠ 1 ∧
    signAdjust c4rec.analog_data_format 1 = 1 ∧ c4rec.m ≠ 0 := by
  have hlin : c4rec.linearization = 0 := by decide
  have hm : c4rec.m = 2 := by decide
  have hb : c4rec.b = -4 := by decide
  have hk1 : c4rec.k1 = 0 := by decide
  have hk2 : c4rec.k2 = 0 := by decide
  have hfmt : c4rec.analog_data_format = 0 := by decide
  have hsa : signAdjust c4rec.analog_data_format 1 = 1 := by decide
  have hl : SdrFullSensorRecord.l 0 = .ok .linear := by decide
  refine ⟨?_, ?_, by decide, hsa, by decide⟩
  · unfold convert_sensor_raw_to_value
    rw [hlin, hl]
    simp only [Except.map, LinFn.eval]
    rw [hsa, hm, hb, hk1, hk2]
    norm_num
  · unfold convert_sensor_value_to_raw
    rw [hlin, hm, hb, hk1, hk2, hfmt]
    have harg : ((-2 : ℝ) * (10 : ℝ) ^ (-1 * (0 : Int)) / ((2 : Nat) : ℝ) -
        (((-4 : Int) : Int) : ℝ) * (10 : ℝ) ^ (0 : Int)) = ((3 : Int) : ℝ) := by
      norm_num
    rw [harg]
    have hpr : pythonRound (3 : ℝ) = 3 := by
      rw [show (3 : ℝ) = ((3 : Int) : ℝ) by norm_num, pythonRound_intCast]
    simp [hpr, L_LINEAR, DATA_FMT_1S_COMPLEMENT, DATA_FMT_2S_COMPLEMENT]

/-- C2: in the body phase, a `ReservationCanceled` response discards every
accumulated byte (the accumulator, whose length is identically the request
offset, is reset to empty, i.e. offset 0), decrements the attempt budget and
retries (second conjunct, stated at the state reached after one successful
partial read); consequently, for the call sequence
`Success(partial), ReservationCanceled, Success(whole record)` the loop
returns exactly the re-sent whole record (first conjunct), and the decoded
record equals the one from an uninterrupted transfer of the same bytes
(third conjunct).  The reservation re-acquisition and the backoff sleep are
I/O effects outside the data flow. -/
theorem C2_reservation_canceled_restart (hdr body p junk : List Nat)
    (retry mrl : Nat) (next : Option Nat) (hretry : 2 ≤ retry)
    (hshort : (hdr ++ p).length < (hdr ++ body).length) :
    bodyLoop (hdr ++ body).length
        [⟨0, 0, p⟩, ⟨CC_RES_CANCELED, 0, junk⟩, ⟨0, 0, hdr ++ body⟩]
        hdr retry mrl = .ok (hdr ++ body) ∧
    bodyLoop (hdr ++ body).length
        [⟨CC_RES_CANCELED, 0, junk⟩, ⟨0, 0, hdr ++ body⟩]
        (hdr ++ p) retry mrl =
      bodyLoop (hdr ++ body).length [⟨0, 0, hdr ++ body⟩] [] (retry - 1) mrl ∧
    (bodyLoop (hdr ++ body).length
        [⟨0, 0, p⟩, ⟨CC_RES_CANCELED, 0, junk⟩, ⟨0, 0, hdr ++ body⟩]
        hdr retry mrl >>= fun d => create_sdr d next) =
      (bodyLoop (hdr ++ body).length [⟨0, 0, body⟩] hdr retry mrl >>=
        fun d => create_sdr d next) := by
  have h1 : ¬(retry = 0) := by omega
  have h2 : ¬(retry - 1 = 0) := by omega
  have h3 : ¬((hdr ++ body).length ≤ (hdr ++ p).length) := by omega
  have h4 : ¬(body.length ≤ p.length) := by
    simp only [List.length_append] at hshort
    omega
  refine ⟨?_, ?_, ?_⟩ <;>
    simp [bodyLoop, CC_RES_CANCELED, CC_CANT_RET_NUM_REQ_BYTES, h1, h2, h3,
      h4, Except.bind]

/-- Witness for C2: a 3-byte record, interrupted after an empty partial
read, re-sent whole after the cancellation. -/
theorem C2_reservation_canceled_restart_witness :
    2 ≤ 2 ∧
    (([1] ++ ([] : List Nat)).length < ([1] ++ [2, 3]).length) ∧
    (bodyLoop ([1] ++ [2, 3] : List Nat).length
        [⟨0, 0, ([] : List Nat)⟩, ⟨CC_RES_CANCELED, 0, [9]⟩, ⟨0, 0, [1] ++ [2, 3]⟩]
        [1] 2 20 = .ok ([1] ++ [2, 3]) ∧
      bodyLoop ([1] ++ [2, 3] : List Nat).length
        [⟨CC_RES_CANCELED, 0, [9]⟩, ⟨0, 0, [1] ++ [2, 3]⟩]
        ([1] ++ ([] : List Nat)) 2 20 =
        bodyLoop ([1] ++ [2, 3] : List Nat).length
          [⟨0, 0, [1] ++ [2, 3]⟩] [] (2 - 1) 20 ∧
      (bodyLoop ([1] ++ [2, 3] : List Nat).length
        [⟨0, 0, ([] : List Nat)⟩, ⟨CC_RES_CANCELED, 0, [9]⟩, ⟨0, 0, [1] ++ [2, 3]⟩]
        [1] 2 20 >>= fun d => create_sdr d none) =
        (bodyLoop ([1] ++ [2, 3] : List Nat).length
          [⟨0, 0, [2, 3]⟩] [1] 2 20 >>= fun d => create_sdr d none)) :=
  ⟨by decide, by decide,
    C2_reservation_canceled_restart [1] [2, 3] [] [9] 2 20 none
      (by decide) (by decide)⟩
